import Mathlib

/-!
Shallow embedding of `src/atena2vcard.py` (CSV → vCard 3.0 converter).

Conventions of the embedding:
* Python `str` is Lean `String` (a list of Unicode scalar values).
* Python byte buffers are `List Nat` with each element `< 256`.
* Python's truthiness test on a string (`x or y`) is `pyOr`.
* `str.strip()` is `pyStrip`; the modelled whitespace set covers the
  ASCII whitespace characters plus NEL, NBSP and the ideographic space
  U+3000 (the whitespace actually reachable in this CSV domain).  Note
  U+FEFF is NOT Python whitespace and is not stripped, faithfully to
  `str.strip()`.
* `re.findall(r"\d", s)` matches Unicode decimal digits; the model's
  `pyIsDigit` covers the ASCII digits and the fullwidth digits
  U+FF10–U+FF19, the decimal digits reachable in this domain.
-/

namespace Atena2Vcard

/-- Python `str.strip()` whitespace test (restricted to the characters
reachable in this domain, see module docstring). -/
def pyIsSpace (c : Char) : Bool :=
  c = ' ' || c = '\t' || c = '\n' || c = '\r' ||
  c = '\x0b' || c = '\x0c' || c = '\u0085' || c = ' ' || c = '　'

/-- Python `\d` digit test (ASCII digits and fullwidth digits). -/
def pyIsDigit (c : Char) : Bool :=
  c.isDigit || (0xFF10 ≤ c.toNat && c.toNat ≤ 0xFF19)

/-- Python `str.strip()`: drop leading and trailing whitespace. -/
def pyStrip (s : String) : String :=
  ⟨((s.data.dropWhile pyIsSpace).reverse.dropWhile pyIsSpace).reverse⟩

/-- Python `x or y` on strings: `y` when `x` is the empty string (falsy),
otherwise `x`. -/
def pyOr (x y : String) : String :=
  if x = "" then y else x

/-- Python `s.replace(c, r)` for a single-character needle `c`:
every occurrence of `c` is replaced by `r` (single-character needles
make the left-to-right non-overlapping scan a per-character map). -/
def pyReplace1 (c : Char) (r : List Char) (l : List Char) : List Char :=
  match l with
  | [] => []
  | x :: xs => (if x = c then r else [x]) ++ pyReplace1 c r xs

/-- The four `str.replace` calls of `esc` (src line 10), in source
order — backslash, newline, semicolon, comma — at the character-list
level. -/
def escList (l : List Char) : List Char :=
  pyReplace1 ',' ['\\', ',']
    (pyReplace1 ';' ['\\', ';']
      (pyReplace1 '\n' ['\\', 'n']
        (pyReplace1 '\\' ['\\', '\\'] l)))

/-- `esc` (src line 7–10): vCard escaping, backslash then newline then
semicolon then comma. -/
def esc (s : String) : String :=
  ⟨escList s.data⟩

/-- Modelled from the spec: the reference `unescape` that inverts vCard
escaping — a backslash followed by `n` decodes to a newline, a backslash
followed by any other character decodes to that character. -/
def unescapeSpec : List Char → List Char
  | [] => []
  | '\\' :: c :: rest => (if c = 'n' then '\n' else c) :: unescapeSpec rest
  | c :: rest => c :: unescapeSpec rest

/-- The per-character effect of `esc`. -/
def escChar (c : Char) : List Char :=
  if c = '\\' then ['\\', '\\']
  else if c = '\n' then ['\\', 'n']
  else if c = ';' then ['\\', ';']
  else if c = ',' then ['\\', ',']
  else [c]

theorem pyReplace1_append (c : Char) (r : List Char) (l₁ l₂ : List Char) :
    pyReplace1 c r (l₁ ++ l₂) = pyReplace1 c r l₁ ++ pyReplace1 c r l₂ := by
  induction l₁ with
  | nil => rfl
  | cons x xs ih => simp [pyReplace1, ih]

/-- The four sequential replaces of `esc` coincide with a single
per-character pass: later replaces never touch the backslashes the
earlier ones introduced. -/
theorem escList_eq_flatMap (l : List Char) :
    escList l = l.flatMap escChar := by
  induction l with
  | nil => rfl
  | cons x xs ih =>
    by_cases hb : x = '\\'
    · subst hb
      simpa [escList, pyReplace1, pyReplace1_append, escChar] using ih
    · by_cases hn : x = '\n'
      · subst hn
        simpa [escList, pyReplace1, pyReplace1_append, escChar] using ih
      · by_cases hs : x = ';'
        · subst hs
          simpa [escList, pyReplace1, pyReplace1_append, escChar] using ih
        · by_cases hc : x = ','
          · subst hc
            simpa [escList, pyReplace1, pyReplace1_append, escChar] using ih
          · simpa [escList, pyReplace1, pyReplace1_append, escChar,
              hb, hn, hs, hc] using ih

theorem unescapeSpec_escChar (c : Char) (rest : List Char) :
    unescapeSpec (escChar c ++ rest) = c :: unescapeSpec rest := by
  by_cases hb : c = '\\'
  · subst hb; rfl
  · by_cases hn : c = '\n'
    · subst hn; rfl
    · by_cases hs : c = ';'
      · subst hs; rfl
      · by_cases hc : c = ','
        · subst hc; rfl
        · simp only [escChar, hb, hn, hs, hc, if_false, List.cons_append,
            List.nil_append]
          cases rest with
          | nil => simp [unescapeSpec, hb]
          | cons y ys =>
            rw [unescapeSpec.eq_def]
            simp [hb]

theorem unescapeSpec_escList (l : List Char) :
    unescapeSpec (escList l) = l := by
  rw [escList_eq_flatMap]
  induction l with
  | nil => rfl
  | cons x xs ih =>
    rw [List.flatMap_cons, unescapeSpec_escChar, ih]

/-! ### Rows

A `Row` is the Python dict produced by `read_csv_rows`: an association
list of (trimmed header key, cell value).  Later bindings shadow
earlier ones (Python dict assignment overwrites), so lookup scans from
the right.  `row.get(k, "")` (and `row.get(k) or ""`) is `rowGet`:
an absent key and a key bound to `""` behave identically everywhere in
the transformer, since every lookup is followed by Python truthiness
fallback or defaults to the empty string. -/

abbrev Row := List (String × String)

/-- `row.get(k, "")` with dict overwrite semantics (last binding wins). -/
def rowGet (row : Row) (k : String) : String :=
  match row.reverse.find? (fun p => p.1 == k) with
  | some p => p.2
  | none => ""

/-- Python `value.split(";")` at the character-list level: split on
every semicolon, keeping empty pieces (`"".split(";") == [""]`). -/
def splitOnSemi : List Char → List (List Char)
  | [] => [[]]
  | c :: rest =>
    if c = ';' then [] :: splitOnSemi rest
    else
      match splitOnSemi rest with
      | f :: fs => (c :: f) :: fs
      | [] => [[c]]

/-- `split_multi` (src line 12–15): split on `;`, trim, drop empties. -/
def split_multi (value : String) : List String :=
  ((splitOnSemi value.data).map (fun l => pyStrip ⟨l⟩)).filter (fun v => v ≠ "")

/-- `b.isPrefixOf`-style test on character lists. -/
def listStarts : List Char → List Char → Bool
  | [], _ => true
  | _ :: _, [] => false
  | p :: ps, s :: ss => p = s && listStarts ps ss

/-- `normalize_phone` (src line 17–22): empty for blank input; keep all
decimal digits; re-apply a leading `+` when the trimmed input starts
with `+` and at least one digit survived. -/
def normalize_phone (num : String) : String :=
  if pyStrip num = "" then ""
  else
    let lead_plus := (pyStrip num).data.head? = some '+'
    let digits := num.data.filter pyIsDigit
    if lead_plus ∧ digits ≠ [] then ⟨'+' :: digits⟩ else ⟨digits⟩

/-- The regex `^(\+81)?0?(90|80|70)` of `detect_phone_type` compiled
out: the string matches iff it starts with one of the twelve concrete
prefixes generated by the optional groups. -/
def mobileMatch (l : List Char) : Bool :=
  ["+81090", "+81080", "+81070", "+8190", "+8180", "+8170",
   "090", "080", "070", "90", "80", "70"].any
    (fun p => listStarts p.data l)

/-- `detect_phone_type` (src line 24–26): Japanese mobile prefix →
`CELL`, else `WORK`. -/
def detect_phone_type (num : String) : String :=
  if mobileMatch num.data then "CELL" else "WORK"

/-! ### Address extraction (`adr_from_row`, src line 28–59) -/

/-- The address-type designator (src line 30): `宛先` trimming to
`自宅` means HOME, anything else WORK. -/
def adrType (row : Row) : String :=
  if pyStrip (rowGet row "宛先") = "自宅" then "HOME" else "WORK"

/-- Postal-code selection (src line 33–34): the Python `or` chain over
the type-specific column, `会社〒`, `自宅〒` — truthiness, not
trimmed-emptiness, decides the fallback; `strip` is applied to the
winner only. -/
def adrPostal (row : Row) : String :=
  pyStrip (pyOr (rowGet row (if adrType row = "HOME" then "自宅〒" else "会社〒"))
    (pyOr (rowGet row "会社〒") (rowGet row "自宅〒")))

/-- Address-line selection (src line 35–37): the key is built from the
ENGLISH type tag (`HOME住所1` / `WORK住所1`), falling back to
`会社住所1` etc. -/
def adrLine (row : Row) (n : String) : String :=
  pyStrip (pyOr (rowGet row (adrType row ++ "住所" ++ n))
    (rowGet row ("会社住所" ++ n)))

/-- One of the prefecture-suffix characters 都/道/府/県. -/
def isPrefMarker (c : Char) : Bool :=
  c = '都' || c = '道' || c = '府' || c = '県'

/-- The lazy group `^(.*?)(都|道|府|県)` of the match at src line 42:
text up to and including the first marker, failing if a newline comes
first (`.` does not match a newline, so a marker beyond one is
unreachable).  Returns (prefix including the marker, remainder). -/
def splitPref : List Char → Option (List Char × List Char)
  | [] => none
  | c :: rest =>
    if isPrefMarker c then some ([c], rest)
    else if c = '\n' then none
    else
      match splitPref rest with
      | some (p, r) => some (c :: p, r)
      | none => none

/-- The trailing `(.*)$` of the same regex: succeeds on a newline-free
remainder, or one whose single newline is final (`$` matches just
before a trailing newline, which is then not captured). -/
def dollarBody : List Char → Option (List Char)
  | l =>
    if l.contains '\n' then
      if l.getLast? = some '\n' ∧ ¬(l.dropLast.contains '\n') then
        some l.dropLast
      else none
    else some l

/-- `re.match(r"^(.*?)(都|道|府|県)(.*)$", a1)` (src line 42):
group1+group2 and group3. -/
def pyMatchPref (l : List Char) : Option (List Char × List Char) :=
  match splitPref l with
  | some (p, rest) =>
    match dollarBody rest with
    | some body => some (p, body)
    | none => none
  | none => none

/-- The prefecture/city/street decomposition (src line 40–53), as
(pref, city, street). -/
def adrSplit (a1 : List Char) : List Char × List Char × List Char :=
  if a1.any isPrefMarker then
    match pyMatchPref a1 with
    | some (p, rest) =>
      if rest.contains '区' then
        let before := rest.takeWhile (fun c => c ≠ '区')
        (p, before ++ ['区'], rest.drop (before.length + 1))
      else (p, [], rest)
    | none => ([], [], [])
  else ([], [], a1)

/-- `adr_from_row` (src line 28–59): the ADR line, or `""` when every
component is empty. -/
def adr_from_row (row : Row) : String :=
  let addr_type := adrType row
  let postal := adrPostal row
  let a1 := adrLine row "1"
  let a2 := adrLine row "2"
  let _a3 := adrLine row "3"   -- a3 (src line 37) is computed, never used
  let pcs := adrSplit a1.data
  let pref : String := ⟨pcs.1⟩
  let city : String := ⟨pcs.2.1⟩
  let street : String := ⟨pcs.2.2⟩
  let street_full := String.intercalate " "
    ([street, a2].filter (fun x => x ≠ ""))
  if street_full = "" ∧ city = "" ∧ pref = "" ∧ postal = "" then ""
  else
    "ADR;TYPE=" ++ addr_type ++ ":;;" ++ esc street_full ++ ";" ++
      esc city ++ ";" ++ esc pref ++ ";" ++ esc postal ++ ";日本"

/-! ### Row → vCard transformer (`row_to_vcard`, src line 61–127) -/

/-- Name block (src line 65–77): N/FN, NICKNAME, phonetic names. -/
def nameLines (row : Row) : List String :=
  let family := pyStrip (rowGet row "姓")
  let given := pyStrip (rowGet row "名")
  (if family ≠ "" ∨ given ≠ "" then
    ["N:" ++ esc family ++ ";" ++ esc given ++ ";;;",
     "FN:" ++ esc given ++ " " ++ esc family]
  else []) ++
  (let nick := pyStrip (rowGet row "ニックネーム")
   if nick ≠ "" then ["NICKNAME:" ++ esc nick] else []) ++
  (let fk := pyStrip (rowGet row "姓かな")
   if fk ≠ "" then ["X-PHONETIC-LAST-NAME:" ++ esc fk] else []) ++
  (let gk := pyStrip (rowGet row "名かな")
   if gk ≠ "" then ["X-PHONETIC-FIRST-NAME:" ++ esc gk] else [])

/-- Organization block (src line 79–91): ORG, phonetic org, TITLE. -/
def orgLines (row : Row) : List String :=
  let company := pyStrip (rowGet row "会社名")
  let dept1 := pyStrip (rowGet row "部署名1")
  let dept2 := pyStrip (rowGet row "部署名2")
  let dept := String.intercalate " " ([dept1, dept2].filter (fun d => d ≠ ""))
  (if company ≠ "" ∨ dept ≠ "" then
    ["ORG:" ++ esc company ++ ";" ++ esc dept]
  else []) ++
  (let org_kana := pyStrip (rowGet row "会社名かな")
   if org_kana ≠ "" then ["X-PHONETIC-ORG:" ++ esc org_kana] else []) ++
  (let title := pyStrip (rowGet row "役職名")
   if title ≠ "" then ["TITLE:" ++ esc title] else [])

/-- One phone entry (src line 96–100): normalize, drop empties, tag
`CELL` when the source label is the mobile column or the detector says
mobile, else keep the source label. -/
def telEntry (label : String) (raw : String) : Option String :=
  let num := normalize_phone raw
  if num = "" then none
  else
    let t := if label = "CELL" ∨ detect_phone_type num = "CELL" then "CELL"
             else label
    some ("TEL;TYPE=" ++ t ++ ",VOICE:" ++ num)

/-- Phone block (src line 93–100): three source columns, multi-split. -/
def telLines (row : Row) : List String :=
  [("WORK", "会社電話"), ("HOME", "自宅電話"), ("CELL", "携帯番号")].flatMap
    (fun lk => (split_multi (rowGet row lk.2)).filterMap (telEntry lk.1))

/-- Email block (src line 102–106): three source columns, multi-split. -/
def emailLines (row : Row) : List String :=
  [("WORK", "会社E-mail"), ("HOME", "自宅E-mail"), ("OTHER", "その他E-mail")].flatMap
    (fun lk => (split_multi (rowGet row lk.2)).filterMap
      (fun mail => if mail ≠ "" then
          some ("EMAIL;TYPE=INTERNET," ++ lk.1 ++ ":" ++ esc mail)
        else none))

/-- Address block (src line 108–110). -/
def adrLines (row : Row) : List String :=
  let adr := adr_from_row row
  if adr ≠ "" then [adr] else []

/-- NOTE block (src line 112–116): the non-empty trimmed notes joined
with the literal two-character separator `\n` (the Python source reads
`'\\n'.join(notes)`: a backslash and an `n`, not a newline), then
escaped. -/
def noteLines (row : Row) : List String :=
  let notes := ([1, 2, 3].map
    (fun i => pyStrip (rowGet row ("備考" ++ toString i)))).filter
      (fun n => n ≠ "")
  if notes ≠ [] then ["NOTE:" ++ esc (String.intercalate "\\n" notes)]
  else []

/-- One memo slot (src line 119–124): non-empty trimmed `メモi` yields
the `item{i+4}` pair of Apple extension lines. -/
def memoSlot (row : Row) (i : Nat) : List String :=
  let val := pyStrip (rowGet row ("メモ" ++ toString i))
  if val ≠ "" then
    let idx := i + 4
    ["item" ++ toString idx ++ ".X-ABRELATEDNAMES:" ++ esc val,
     "item" ++ toString idx ++ ".X-ABLabel:メモ" ++ toString i]
  else []

/-- Memo block (src line 118–124): slots 1 through 5. -/
def memoLines (row : Row) : List String :=
  [1, 2, 3, 4, 5].flatMap (memoSlot row)

/-- `row_to_vcard` (src line 61–127): one row to one vCard 3.0 record. -/
def row_to_vcard (row : Row) : String :=
  String.intercalate "\n"
    (["BEGIN:VCARD", "VERSION:3.0"] ++
     nameLines row ++ orgLines row ++ telLines row ++ emailLines row ++
     adrLines row ++ noteLines row ++ memoLines row ++ ["END:VCARD"])

/-! ### CSV reading (`read_csv_rows`, src line 130–148)

Byte buffers are `List Nat` (each element a byte value).  The Python
codecs are modelled as follows: `utf-8` is a strict standard UTF-8
decoder (a leading BOM decodes to an ordinary U+FEFF character);
`utf-8-sig` strips one leading BOM, then decodes as UTF-8; `cp932` and
`shift_jis` share a DBCS decoder differing only in the lead-byte
range.  For the two legacy codecs the well-formed two-byte pairs are
mapped injectively into plane-15 private-use code points: the concrete
JIS X 0208 character assignment is not modelled, because no claim
depends on which character a legacy pair denotes — only on decode
success or failure. -/

/-- UTF-8 continuation byte. -/
def isCont (b : Nat) : Bool := 0x80 ≤ b && b ≤ 0xBF

/-- Strict UTF-8 decoding (Python `bytes.decode("utf-8")`): rejects
invalid leads, overlong forms, surrogates and code points beyond
U+10FFFF. -/
def utf8Decode : List Nat → Option (List Char)
  | [] => some []
  | b1 :: t1 =>
    if b1 < 0x80 then (utf8Decode t1).map (fun cs => Char.ofNat b1 :: cs)
    else if b1 < 0xC2 then none
    else if b1 < 0xE0 then
      match t1 with
      | b2 :: t2 =>
        if isCont b2 then
          (utf8Decode t2).map
            (fun cs => Char.ofNat ((b1 - 0xC0) * 0x40 + (b2 - 0x80)) :: cs)
        else none
      | [] => none
    else if b1 < 0xF0 then
      match t1 with
      | b2 :: b3 :: t3 =>
        if (if b1 = 0xE0 then 0xA0 ≤ b2 && b2 ≤ 0xBF
            else if b1 = 0xED then 0x80 ≤ b2 && b2 ≤ 0x9F
            else isCont b2) && isCont b3 then
          (utf8Decode t3).map
            (fun cs => Char.ofNat
              ((b1 - 0xE0) * 0x1000 + (b2 - 0x80) * 0x40 + (b3 - 0x80)) :: cs)
        else none
      | _ => none
    else if b1 < 0xF5 then
      match t1 with
      | b2 :: b3 :: b4 :: t4 =>
        if (if b1 = 0xF0 then 0x90 ≤ b2 && b2 ≤ 0xBF
            else if b1 = 0xF4 then 0x80 ≤ b2 && b2 ≤ 0x8F
            else isCont b2) && isCont b3 && isCont b4 then
          (utf8Decode t4).map
            (fun cs => Char.ofNat
              ((b1 - 0xF0) * 0x40000 + (b2 - 0x80) * 0x1000 +
               (b3 - 0x80) * 0x40 + (b4 - 0x80)) :: cs)
        else none
      | _ => none
    else none

/-- Python `bytes.decode("utf-8-sig")`: strip one leading BOM, then
decode as UTF-8. -/
def utf8SigDecode (b : List Nat) : Option (List Char) :=
  match b with
  | 0xEF :: 0xBB :: 0xBF :: rest => utf8Decode rest
  | _ => utf8Decode b

/-- Shift_JIS-family lead byte; cp932 extends the second lead range. -/
def sjisLead (cp932 : Bool) (b : Nat) : Bool :=
  (0x81 ≤ b && b ≤ 0x9F) || (0xE0 ≤ b && b ≤ (if cp932 then 0xFC else 0xEF))

/-- Shift_JIS-family trail byte. -/
def sjisTrail (b : Nat) : Bool := 0x40 ≤ b && b ≤ 0xFC && b ≠ 0x7F

/-- Injective placeholder for a decoded two-byte pair (see section
docstring: the JIS character table itself is not modelled). -/
def sjisPairChar (b1 b2 : Nat) : Char :=
  Char.ofNat (0xF0000 + (b1 - 0x81) * 0xBD + (b2 - 0x40))

/-- cp932's extra single-byte assignments (CPython values): 0x80 maps
to U+0080, and 0xA0/0xFD/0xFE/0xFF map into U+F8F0–U+F8F3. -/
def cp932Single (b : Nat) : Option Char :=
  if b = 0x80 then some (Char.ofNat 0x80)
  else if b = 0xA0 then some (Char.ofNat 0xF8F0)
  else if b = 0xFD then some (Char.ofNat 0xF8F1)
  else if b = 0xFE then some (Char.ofNat 0xF8F2)
  else if b = 0xFF then some (Char.ofNat 0xF8F3)
  else none

/-- The two Japanese legacy codecs: ASCII passthrough, halfwidth
katakana in 0xA1–0xDF, cp932's extra single bytes, two-byte sequences
per `sjisLead`/`sjisTrail`; anything else fails.  (Abstraction: the
two-byte pairs CPython rejects as unassigned are modelled as
decodable; no claim depends on a legacy decode of such a pair.) -/
def sjisDecode (cp932 : Bool) : List Nat → Option (List Char)
  | [] => some []
  | b :: t =>
    if b < 0x80 then
      (sjisDecode cp932 t).map (fun cs => Char.ofNat b :: cs)
    else if 0xA1 ≤ b && b ≤ 0xDF then
      (sjisDecode cp932 t).map (fun cs => Char.ofNat (0xFF61 + (b - 0xA1)) :: cs)
    else if sjisLead cp932 b then
      match t with
      | b2 :: t2 =>
        if sjisTrail b2 then
          (sjisDecode cp932 t2).map (fun cs => sjisPairChar b b2 :: cs)
        else none
      | [] => none
    else
      match (if cp932 then cp932Single b else none) with
      | some c => (sjisDecode cp932 t).map (fun cs => c :: cs)
      | none => none

/-- Parser state of the CSV scanner (Python `csv` excel dialect). -/
inductive CsvMode : Type
  | start
  | unquoted
  | quoted
  | quoteEnd
deriving Repr, DecidableEq

/-- The CSV state machine. Arguments: mode, current field (reversed),
current record, remaining input.  A blank line yields the empty record
`[]` (as `csv.reader` does); `\r\n`, `\r` and `\n` all terminate a
record; a quote opens a quoted field only at field start; a doubled
quote inside a quoted field is a literal quote; text after a closing
quote is appended leniently (`strict=False`, the default). -/
def csvAux : CsvMode → List Char → List String → List Char → List (List String)
  | CsvMode.start, _, record, [] =>
    if record = [] then [] else [record ++ [""]]
  | CsvMode.unquoted, field, record, [] => [record ++ [(⟨field.reverse⟩ : String)]]
  | CsvMode.quoted, field, record, [] => [record ++ [(⟨field.reverse⟩ : String)]]
  | CsvMode.quoteEnd, field, record, [] => [record ++ [(⟨field.reverse⟩ : String)]]
  | CsvMode.start, _, record, '"' :: rest =>
    csvAux CsvMode.quoted [] record rest
  | CsvMode.start, _, record, ',' :: rest =>
    csvAux CsvMode.start [] (record ++ [""]) rest
  | CsvMode.start, _, record, '\r' :: '\n' :: rest =>
    (if record = [] then [] else record ++ [""]) :: csvAux CsvMode.start [] [] rest
  | CsvMode.start, _, record, '\r' :: rest =>
    (if record = [] then [] else record ++ [""]) :: csvAux CsvMode.start [] [] rest
  | CsvMode.start, _, record, '\n' :: rest =>
    (if record = [] then [] else record ++ [""]) :: csvAux CsvMode.start [] [] rest
  | CsvMode.start, _, record, c :: rest =>
    csvAux CsvMode.unquoted [c] record rest
  | CsvMode.unquoted, field, record, ',' :: rest =>
    csvAux CsvMode.start [] (record ++ [(⟨field.reverse⟩ : String)]) rest
  | CsvMode.unquoted, field, record, '\r' :: '\n' :: rest =>
    (record ++ [(⟨field.reverse⟩ : String)]) :: csvAux CsvMode.start [] [] rest
  | CsvMode.unquoted, field, record, '\r' :: rest =>
    (record ++ [(⟨field.reverse⟩ : String)]) :: csvAux CsvMode.start [] [] rest
  | CsvMode.unquoted, field, record, '\n' :: rest =>
    (record ++ [(⟨field.reverse⟩ : String)]) :: csvAux CsvMode.start [] [] rest
  | CsvMode.unquoted, field, record, c :: rest =>
    csvAux CsvMode.unquoted (c :: field) record rest
  | CsvMode.quoted, field, record, '"' :: rest =>
    csvAux CsvMode.quoteEnd field record rest
  | CsvMode.quoted, field, record, c :: rest =>
    csvAux CsvMode.quoted (c :: field) record rest
  | CsvMode.quoteEnd, field, record, '"' :: rest =>
    csvAux CsvMode.quoted ('"' :: field) record rest
  | CsvMode.quoteEnd, field, record, ',' :: rest =>
    csvAux CsvMode.start [] (record ++ [(⟨field.reverse⟩ : String)]) rest
  | CsvMode.quoteEnd, field, record, '\r' :: '\n' :: rest =>
    (record ++ [(⟨field.reverse⟩ : String)]) :: csvAux CsvMode.start [] [] rest
  | CsvMode.quoteEnd, field, record, '\r' :: rest =>
    (record ++ [(⟨field.reverse⟩ : String)]) :: csvAux CsvMode.start [] [] rest
  | CsvMode.quoteEnd, field, record, '\n' :: rest =>
    (record ++ [(⟨field.reverse⟩ : String)]) :: csvAux CsvMode.start [] [] rest
  | CsvMode.quoteEnd, field, record, c :: rest =>
    csvAux CsvMode.unquoted (c :: field) record rest

/-- `csv.reader` over the decoded text. -/
def csvParse (s : String) : List (List String) :=
  csvAux CsvMode.start [] [] s.data

/-- One `csv.DictReader` data row, after the cleanup comprehension at
src line 142: keys are trimmed header cells (later duplicates shadow
earlier ones via `rowGet`), a short row is padded with `""` (the
`None` restval turned into `""`).  Cells beyond the header length go
under the `None` restkey in Python and are never consulted by the
transformer (every lookup key is a non-empty string), so they are
dropped here. -/
def mkRow (header r : List String) : Row :=
  (header.zip (r ++ List.replicate (header.length - r.length) "")).map
    (fun p => (pyStrip p.1, p.2))

/-- `csv.DictReader` semantics: the first record (even an empty one)
gives the field names; blank records among the data are skipped. -/
def dictReaderRows (recs : List (List String)) : List Row :=
  match recs with
  | [] => []
  | header :: rest => (rest.filter (fun r => r ≠ [])).map (mkRow header)

/-- `read_csv_rows` (src line 130–148): try the four encodings in
order, return the rows of the first that decodes; `none` models the
`ValueError` raised when all four fail.  (`csv.DictReader` itself
never fails on decoded text, so decoding is the only failure source in
the loop's `try`.) -/
def read_csv_rows (b : List Nat) : Option (List Row) :=
  [utf8Decode, utf8SigDecode, sjisDecode true, sjisDecode false].findSome?
    (fun dec => (dec b).map (fun cs => dictReaderRows (csvParse ⟨cs⟩)))

/-! ## The claims -/

/-- C1: the claim says a row with designator `自宅`, home postal code
`100-0001` and home address line `自宅住所1 = 東京都千代田区丸の内1-1`
yields an ADR line with region `東京都`, locality `千代田区`, street
`丸の内1-1`.  The code instead builds the lookup key from the English
type tag (`HOME住所1`), which such a row does not carry, so the
street/locality/region components come out empty — only the postal
code and fixed country survive.  The same address put in the company
column `会社住所1` is parsed in full, confirming the key construction
(not the parsing) is the slip. -/
theorem c1_home_address_line_ignored :
    adr_from_row [("宛先", "自宅"), ("自宅〒", "100-0001"),
        ("自宅住所1", "東京都千代田区丸の内1-1")] =
      "ADR;TYPE=HOME:;;;;;100-0001;日本" ∧
    adr_from_row [("宛先", "自宅"), ("自宅〒", "100-0001"),
        ("会社住所1", "東京都千代田区丸の内1-1")] =
      "ADR;TYPE=HOME:;;丸の内1-1;千代田区;東京都;100-0001;日本" := by
  exact ⟨rfl, rfl⟩

/-- C2: the claim says consecutive notes are separated by the single
two-character escape `\n`.  The source joins the notes with the
literal two-character string backslash-`n` (Python `'\\n'`) and then
escapes, so the backslash is doubled: the emitted separator is
backslash-backslash-`n`.  The all-empty case does omit the NOTE
line. -/
theorem c2_note_separator_double_escaped :
    noteLines [("備考1", "a"), ("備考2", "b")] = ["NOTE:a\\\\nb"] ∧
    row_to_vcard [("備考1", "a"), ("備考2", "b")] =
      "BEGIN:VCARD\nVERSION:3.0\nNOTE:a\\\\nb\nEND:VCARD" ∧
    ("NOTE:a\\\\nb" : String) ≠ "NOTE:a\\nb" ∧
    noteLines [("備考1", " "), ("備考2", ""), ("備考3", "")] = [] := by
  refine ⟨rfl, by decide, by decide, rfl⟩

/-- C5: `esc` substitutes backslash, newline, semicolon and comma in
that order; its net effect is the per-character map `escChar`, and the
reference `unescapeSpec` inverts it on every string. -/
theorem c5_escape_roundtrip (s : String) :
    (esc s).data = s.data.flatMap escChar ∧
    unescapeSpec (esc s).data = s.data :=
  ⟨escList_eq_flatMap s.data, unescapeSpec_escList s.data⟩

/-- C3: a surviving phone entry from the company (`WORK`) or home
(`HOME`) column is re-tagged `CELL` when the detector matches the
Japanese mobile pattern; an entry from the mobile column (`CELL`
label) is tagged `CELL` unconditionally; otherwise the source label is
kept. -/
theorem c3_mobile_detection_overrides_label (raw : String)
    (h : normalize_phone raw ≠ "") :
    (detect_phone_type (normalize_phone raw) = "CELL" →
      telEntry "WORK" raw =
        some ("TEL;TYPE=CELL,VOICE:" ++ normalize_phone raw) ∧
      telEntry "HOME" raw =
        some ("TEL;TYPE=CELL,VOICE:" ++ normalize_phone raw)) ∧
    telEntry "CELL" raw =
      some ("TEL;TYPE=CELL,VOICE:" ++ normalize_phone raw) ∧
    (detect_phone_type (normalize_phone raw) ≠ "CELL" →
      telEntry "WORK" raw =
        some ("TEL;TYPE=WORK,VOICE:" ++ normalize_phone raw) ∧
      telEntry "HOME" raw =
        some ("TEL;TYPE=HOME,VOICE:" ++ normalize_phone raw)) := by
  refine ⟨fun hc => ⟨?_, ?_⟩, ?_, fun hc => ⟨?_, ?_⟩⟩
  · simp [telEntry, h, hc]
  · simp [telEntry, h, hc]
  · simp [telEntry, h]
  · simp [telEntry, h, hc]
  · simp [telEntry, h, hc]

/-- Witness for C3 at a mobile number found in the company column. -/
theorem c3_mobile_detection_overrides_label_witness :
    telEntry "WORK" "090-1234-5678" =
      some "TEL;TYPE=CELL,VOICE:09012345678" := by
  have h := (c3_mobile_detection_overrides_label "090-1234-5678"
    (by decide)).1 (by decide)
  rw [h.1]
  decide

/-- The digits `normalize_phone` keeps (src line 21). -/
def digitsOf (s : String) : List Char := s.data.filter pyIsDigit

theorem pyIsSpace_not_digit (c : Char) (h : pyIsSpace c = true) :
    pyIsDigit c = false := by
  simp only [pyIsSpace, Bool.or_eq_true, decide_eq_true_eq] at h
  rcases h with ((((((((h | h) | h) | h) | h) | h) | h) | h) | h) <;>
    subst h <;> decide

theorem digitsOf_eq_nil_of_strip_empty (s : String) (h : pyStrip s = "") :
    digitsOf s = [] := by
  have hall : ∀ c ∈ s.data, pyIsSpace c = true := by
    have h2 : ((s.data.dropWhile pyIsSpace).reverse.dropWhile pyIsSpace).reverse
        = [] := congrArg String.data h
    rw [List.reverse_eq_nil_iff, List.dropWhile_eq_nil_iff] at h2
    intro c hc
    rw [← List.takeWhile_append_dropWhile (p := pyIsSpace) (l := s.data)] at hc
    rcases List.mem_append.mp hc with h3 | h3
    · exact List.mem_takeWhile_imp h3
    · exact h2 c (List.mem_reverse.mpr h3)
  simp only [digitsOf, List.filter_eq_nil_iff]
  intro c hc
  simp [pyIsSpace_not_digit c (hall c hc)]

theorem digitsOf_head_not_plus (s : String) :
    (digitsOf s).head? ≠ some '+' := by
  cases hd : digitsOf s with
  | nil => simp
  | cons c cs =>
    intro hh
    have hc : c = '+' := by simpa using hh
    have hmem : c ∈ digitsOf s := by rw [hd]; exact List.mem_cons_self c cs
    have := (List.mem_filter.mp hmem).2
    rw [hc] at this
    simp [pyIsDigit] at this

/-- C4: `normalize_phone` returns exactly the digits of the input,
`+`-prefixed precisely when the trimmed input starts with `+` and at
least one digit is present; digit-free input (empty and whitespace-only
included) yields `""`, and such an entry produces no TEL line. -/
theorem c4_normalize_phone_digits (s : String) :
    normalize_phone s =
      (if (pyStrip s).data.head? = some '+' ∧ digitsOf s ≠ []
       then (⟨'+' :: digitsOf s⟩ : String) else (⟨digitsOf s⟩ : String)) ∧
    ((normalize_phone s).data.head? = some '+' ↔
      (pyStrip s).data.head? = some '+' ∧ digitsOf s ≠ []) ∧
    (digitsOf s = [] →
      normalize_phone s = "" ∧ ∀ label, telEntry label s = none) := by
  have hmain : normalize_phone s =
      (if (pyStrip s).data.head? = some '+' ∧ digitsOf s ≠ []
       then (⟨'+' :: digitsOf s⟩ : String) else (⟨digitsOf s⟩ : String)) := by
    by_cases hs : pyStrip s = ""
    · have hd := digitsOf_eq_nil_of_strip_empty s hs
      rw [hd]
      simp only [ne_eq, not_true_eq_false, and_false, if_false]
      show normalize_phone s = ""
      simp [normalize_phone, hs]
    · simp only [normalize_phone, hs, if_false, digitsOf]
  refine ⟨hmain, ?_, ?_⟩
  · rw [hmain]
    by_cases hc : (pyStrip s).data.head? = some '+' ∧ digitsOf s ≠ []
    · simp [hc]
    · simp only [hc, if_false, iff_false]
      intro hh
      exact digitsOf_head_not_plus s hh
  · intro hd
    have h0 : normalize_phone s = "" := by
      rw [hmain, hd]
      simp only [ne_eq, not_true_eq_false, and_false, if_false]
    exact ⟨h0, fun label => by simp [telEntry, h0]⟩

/-- Witness for C4: a digit-free entry is dropped; a `+`-prefixed
number keeps its `+`. -/
theorem c4_normalize_phone_digits_witness :
    normalize_phone "abc" = "" ∧ telEntry "WORK" "abc" = none ∧
    normalize_phone " +81(90)-1" = "+81901" := by
  have h := (c4_normalize_phone_digits "abc").2.2 (by decide)
  refine ⟨h.1, h.2 "WORK", ?_⟩
  have h2 := (c4_normalize_phone_digits " +81(90)-1").1
  rw [h2]
  decide

/-- C8 counterexample: memo slot 3 produces the `item7` pair (offset
four from the slot number), not the `item8` pair the claim's "in
particular" sentence asserts. -/
theorem c8_memo3_gives_item7_not_item8 :
    memoLines [("メモ3", "X")] =
      ["item7.X-ABRELATEDNAMES:X", "item7.X-ABLabel:メモ3"] ∧
    memoLines [("メモ3", "X")] ≠
      ["item8.X-ABRELATEDNAMES:X", "item8.X-ABLabel:メモ3"] := by
  refine ⟨rfl, ?_⟩
  decide

/-- C8 amended: a non-empty memo slot `i` (1 ≤ i ≤ 5) emits exactly
the pair `item{i+4}.X-ABRELATEDNAMES` / `item{i+4}.X-ABLabel:メモi`
(so slot 3 yields item index 7, not 8); an empty slot emits nothing;
the memo block is the slots' contributions in order. -/
theorem c8_memo_pair_offset_four (row : Row) (i : Nat)
    (h1 : 1 ≤ i) (h5 : i ≤ 5) :
    (pyStrip (rowGet row ("メモ" ++ toString i)) ≠ "" →
      memoSlot row i =
        ["item" ++ toString (i + 4) ++ ".X-ABRELATEDNAMES:" ++
           esc (pyStrip (rowGet row ("メモ" ++ toString i))),
         "item" ++ toString (i + 4) ++ ".X-ABLabel:メモ" ++ toString i]) ∧
    (pyStrip (rowGet row ("メモ" ++ toString i)) = "" →
      memoSlot row i = []) ∧
    memoLines row =
      memoSlot row 1 ++ (memoSlot row 2 ++ (memoSlot row 3 ++
        (memoSlot row 4 ++ memoSlot row 5))) := by
  refine ⟨fun hv => ?_, fun hv => ?_, ?_⟩
  · simp [memoSlot, hv]
  · simp [memoSlot, hv]
  · simp [memoLines, List.flatMap]

/-- Witness for C8 at memo slot 3. -/
theorem c8_memo_pair_offset_four_witness :
    memoSlot [("メモ3", "X")] 3 =
      ["item7.X-ABRELATEDNAMES:X", "item7.X-ABLabel:メモ3"] := by
  have h := (c8_memo_pair_offset_four [("メモ3", "X")] 3
    (by decide) (by decide)).1 (by decide)
  rw [h]
  decide

/-- C7 counterexample: the claim says a whitespace-only earlier postal
column counts as empty and falls through to the next column.  With
`自宅〒 = " "` (whitespace only, address type HOME) and
`会社〒 = "100-0002"`, the code produces an empty postal component —
the Python `or` chain tests truthiness before trimming, so the
whitespace-only column wins and then trims to nothing. -/
theorem c7_whitespace_postal_blocks_fallback :
    adrPostal [("宛先", "自宅"), ("自宅〒", " "), ("会社〒", "100-0002")]
      = "" ∧
    pyStrip " " = "" ∧
    adrPostal [("宛先", "自宅"), ("自宅〒", " "), ("会社〒", "100-0002")]
      ≠ "100-0002" := by
  refine ⟨rfl, rfl, ?_⟩
  decide

/-- C7 amended: the postal component is chosen by first-non-falsy
precedence — the type-specific column when it is non-empty BEFORE
trimming, else `会社〒` when non-empty before trimming, else `自宅〒` —
and only the winner is trimmed (a whitespace-only earlier column
therefore blocks the fallback and yields an empty component). -/
theorem c7_postal_precedence (row : Row) :
    (rowGet row (if adrType row = "HOME" then "自宅〒" else "会社〒") ≠ "" →
      adrPostal row =
        pyStrip (rowGet row (if adrType row = "HOME" then "自宅〒" else "会社〒"))) ∧
    (rowGet row (if adrType row = "HOME" then "自宅〒" else "会社〒") = "" →
      rowGet row "会社〒" ≠ "" →
      adrPostal row = pyStrip (rowGet row "会社〒")) ∧
    (rowGet row (if adrType row = "HOME" then "自宅〒" else "会社〒") = "" →
      rowGet row "会社〒" = "" →
      adrPostal row = pyStrip (rowGet row "自宅〒")) := by
  refine ⟨fun h1 => ?_, fun h1 h2 => ?_, fun h1 h2 => ?_⟩
  · simp [adrPostal, pyOr, h1]
  · simp [adrPostal, pyOr, h1, h2]
  · simp [adrPostal, pyOr, h1, h2]

/-- Witness for C7 amended: an empty (not merely blank) type-specific
column does fall through to `会社〒`. -/
theorem c7_postal_precedence_witness :
    adrPostal [("宛先", "自宅"), ("自宅〒", ""), ("会社〒", " 100-0002 ")]
      = "100-0002" := by
  have h := (c7_postal_precedence
    [("宛先", "自宅"), ("自宅〒", ""), ("会社〒", " 100-0002 ")]).2.1
    (by decide) (by decide)
  rw [h]
  decide

/-- C6: the reader fails exactly when all four candidate encodings
(utf-8, utf-8-sig, cp932, shift_jis, tried in that order) fail to
decode the bytes; an empty byte buffer and a header-only CSV
(`"col1,col2\n"`) both yield an empty row sequence, not an error. -/
theorem c6_decode_error_iff_all_encodings_fail (b : List Nat) :
    (read_csv_rows b = none ↔
      utf8Decode b = none ∧ utf8SigDecode b = none ∧
      sjisDecode true b = none ∧ sjisDecode false b = none) ∧
    read_csv_rows [] = some [] ∧
    read_csv_rows [0x63, 0x6F, 0x6C, 0x31, 0x2C, 0x63, 0x6F, 0x6C, 0x32, 0x0A]
      = some [] := by
  refine ⟨?_, rfl, rfl⟩
  unfold read_csv_rows
  cases h1 : utf8Decode b <;> cases h2 : utf8SigDecode b <;>
    cases h3 : sjisDecode true b <;> cases h4 : sjisDecode false b <;>
      simp [List.findSome?, h1, h2, h3, h4]

/-- C10: a buffer starting with the UTF-8 byte-order mark that is
entirely valid UTF-8 is decoded by the FIRST candidate, plain utf-8
(so utf-8-sig, second in the list, is never consulted), with the BOM
becoming an ordinary U+FEFF character; `pyStrip` does not remove
U+FEFF, so the first header key keeps it, and a lookup under the
intended label `姓` misses — the concrete BOM'd CSV `姓\n山田` yields
the header key `﻿姓` and its row transforms to a vCard without
any name line. -/
theorem c10_bom_survives_plain_utf8 (rest : List Nat) (cs : List Char)
    (h : utf8Decode rest = some cs) :
    utf8Decode (0xEF :: 0xBB :: 0xBF :: rest) = some ('﻿' :: cs) ∧
    read_csv_rows (0xEF :: 0xBB :: 0xBF :: rest) =
      some (dictReaderRows (csvParse ⟨'﻿' :: cs⟩)) ∧
    pyStrip "﻿姓" = "﻿姓" ∧
    read_csv_rows [0xEF, 0xBB, 0xBF,
        0xE5, 0xA7, 0x93, 0x0A, 0xE5, 0xB1, 0xB1, 0xE7, 0x94, 0xB0] =
      some [[("﻿姓", "山田")]] ∧
    row_to_vcard [("﻿姓", "山田")] =
      "BEGIN:VCARD\nVERSION:3.0\nEND:VCARD" := by
  have h1 : utf8Decode (0xEF :: 0xBB :: 0xBF :: rest) = some ('﻿' :: cs) := by
    cases rest with
    | nil =>
      have h0 : (some [] : Option (List Char)) = some cs := h
      obtain rfl : cs = [] := (Option.some.inj h0).symm
      rfl
    | cons b4 t4 =>
      have hstep : utf8Decode (0xEF :: 0xBB :: 0xBF :: b4 :: t4) =
          (utf8Decode (b4 :: t4)).map (fun l => Char.ofNat 0xFEFF :: l) := rfl
      rw [hstep, h]
      rfl
  refine ⟨h1, ?_, rfl, by decide, by decide⟩
  unfold read_csv_rows
  simp [List.findSome?, h1]

/-- The home address line columns of the documented Japanese schema:
`adr_from_row` never reads them (its keys are `HOME住所n`/`WORK住所n`
and `会社住所n`). -/
def homeAddrKeys : List String := ["自宅住所1", "自宅住所2", "自宅住所3"]

/-- Rows agreeing outside the home address columns. -/
def AgreeOffHome (r1 r2 : Row) : Prop :=
  ∀ k, k ∉ homeAddrKeys → rowGet r1 k = rowGet r2 k

theorem adrType_congr {r1 r2 : Row} (hg : AgreeOffHome r1 r2) :
    adrType r1 = adrType r2 := by
  unfold adrType
  rw [hg "宛先" (by decide)]

theorem adrPostal_congr {r1 r2 : Row} (hg : AgreeOffHome r1 r2) :
    adrPostal r1 = adrPostal r2 := by
  have ht := adrType_congr hg
  by_cases hh : adrType r2 = "HOME" <;>
    simp only [adrPostal, ht, hh, if_true, if_false, reduceIte] <;>
    rw [hg "自宅〒" (by decide), hg "会社〒" (by decide)]

theorem adrLine_congr {r1 r2 : Row} (hg : AgreeOffHome r1 r2) (n : String)
    (hn : ("HOME住所" ++ n) ∉ homeAddrKeys)
    (wn : ("WORK住所" ++ n) ∉ homeAddrKeys)
    (cn : ("会社住所" ++ n) ∉ homeAddrKeys) :
    adrLine r1 n = adrLine r2 n := by
  have ht := adrType_congr hg
  by_cases hh : adrType r2 = "HOME"
  · simp only [adrLine, ht, hh, reduceIte]
    rw [show ("HOME" ++ "住所" ++ n : String) = "HOME住所" ++ n from rfl]
    rw [hg _ hn, hg _ cn]
  · have hw : adrType r2 = "WORK" := by
      unfold adrType at hh ⊢
      by_cases hz : pyStrip (rowGet r2 "宛先") = "自宅"
      · exact absurd (by simp [hz]) hh
      · simp [hz]
    simp only [adrLine, ht, hw, reduceIte]
    rw [show ("WORK" ++ "住所" ++ n : String) = "WORK住所" ++ n from rfl]
    rw [hg _ wn, hg _ cn]

theorem adr_from_row_congr {r1 r2 : Row} (hg : AgreeOffHome r1 r2) :
    adr_from_row r1 = adr_from_row r2 := by
  simp only [adr_from_row]
  rw [adrType_congr hg, adrPostal_congr hg,
    adrLine_congr hg "1" (by decide) (by decide) (by decide),
    adrLine_congr hg "2" (by decide) (by decide) (by decide)]

theorem nameLines_congr {r1 r2 : Row} (hg : AgreeOffHome r1 r2) :
    nameLines r1 = nameLines r2 := by
  simp only [nameLines]
  rw [hg "姓" (by decide), hg "名" (by decide), hg "ニックネーム" (by decide),
    hg "姓かな" (by decide), hg "名かな" (by decide)]

theorem orgLines_congr {r1 r2 : Row} (hg : AgreeOffHome r1 r2) :
    orgLines r1 = orgLines r2 := by
  simp only [orgLines]
  rw [hg "会社名" (by decide), hg "部署名1" (by decide),
    hg "部署名2" (by decide), hg "会社名かな" (by decide),
    hg "役職名" (by decide)]

theorem telLines_congr {r1 r2 : Row} (hg : AgreeOffHome r1 r2) :
    telLines r1 = telLines r2 := by
  simp only [telLines, List.flatMap_cons, List.flatMap_nil]
  rw [hg "会社電話" (by decide), hg "自宅電話" (by decide),
    hg "携帯番号" (by decide)]

theorem emailLines_congr {r1 r2 : Row} (hg : AgreeOffHome r1 r2) :
    emailLines r1 = emailLines r2 := by
  simp only [emailLines, List.flatMap_cons, List.flatMap_nil]
  rw [hg "会社E-mail" (by decide), hg "自宅E-mail" (by decide),
    hg "その他E-mail" (by decide)]

theorem noteLines_congr {r1 r2 : Row} (hg : AgreeOffHome r1 r2) :
    noteLines r1 = noteLines r2 := by
  simp only [noteLines, List.map_cons, List.map_nil]
  rw [show ("備考" ++ toString 1 : String) = "備考1" from rfl,
    show ("備考" ++ toString 2 : String) = "備考2" from rfl,
    show ("備考" ++ toString 3 : String) = "備考3" from rfl,
    hg "備考1" (by decide), hg "備考2" (by decide), hg "備考3" (by decide)]

theorem memoSlot_congr {r1 r2 : Row} (hg : AgreeOffHome r1 r2) (i : Nat)
    (hm : ("メモ" ++ toString i) ∉ homeAddrKeys) :
    memoSlot r1 i = memoSlot r2 i := by
  simp only [memoSlot]
  rw [hg _ hm]

theorem memoLines_congr {r1 r2 : Row} (hg : AgreeOffHome r1 r2) :
    memoLines r1 = memoLines r2 := by
  simp only [memoLines, List.flatMap_cons, List.flatMap_nil]
  rw [memoSlot_congr hg 1 (by decide), memoSlot_congr hg 2 (by decide),
    memoSlot_congr hg 3 (by decide), memoSlot_congr hg 4 (by decide),
    memoSlot_congr hg 5 (by decide)]

theorem row_to_vcard_congr {r1 r2 : Row} (hg : AgreeOffHome r1 r2) :
    row_to_vcard r1 = row_to_vcard r2 := by
  unfold row_to_vcard
  rw [nameLines_congr hg, orgLines_congr hg, telLines_congr hg,
    emailLines_congr hg]
  rw [show adrLines r1 = adrLines r2 by
      unfold adrLines; rw [adr_from_row_congr hg]]
  rw [noteLines_congr hg, memoLines_congr hg]

/-- C9: two rows that agree on every column except the home address
lines `自宅住所1..3` (and carry no `HOME住所n`/`WORK住所n` keys)
produce the identical vCard — the transformer never reads those
columns, because `adr_from_row` builds its keys from the English type
tag — and under those conditions the parsed address components come
from `会社住所1`/`会社住所2` even when the address type is HOME. -/
theorem c9_vcard_ignores_home_address_columns (r1 r2 : Row)
    (hg : AgreeOffHome r1 r2)
    (e1 : rowGet r1 "HOME住所1" = "") (e2 : rowGet r1 "HOME住所2" = "")
    (e3 : rowGet r1 "HOME住所3" = "")
    (w1 : rowGet r1 "WORK住所1" = "") (w2 : rowGet r1 "WORK住所2" = "")
    (w3 : rowGet r1 "WORK住所3" = "") :
    row_to_vcard r1 = row_to_vcard r2 ∧
    adrLine r1 "1" = pyStrip (rowGet r1 "会社住所1") ∧
    adrLine r1 "2" = pyStrip (rowGet r1 "会社住所2") ∧
    adrLine r1 "3" = pyStrip (rowGet r1 "会社住所3") := by
  refine ⟨row_to_vcard_congr hg, ?_, ?_, ?_⟩ <;>
  · unfold adrLine
    by_cases hh : adrType r1 = "HOME"
    · simp only [hh, reduceIte]
      first
        | (rw [show ("HOME" ++ "住所" ++ "1" : String) = "HOME住所1" from rfl,
            e1]; simp [pyOr])
        | (rw [show ("HOME" ++ "住所" ++ "2" : String) = "HOME住所2" from rfl,
            e2]; simp [pyOr])
        | (rw [show ("HOME" ++ "住所" ++ "3" : String) = "HOME住所3" from rfl,
            e3]; simp [pyOr])
    · have hw : adrType r1 = "WORK" := by
        unfold adrType at hh ⊢
        by_cases hz : pyStrip (rowGet r1 "宛先") = "自宅"
        · exact absurd (by simp [hz]) hh
        · simp [hz]
      simp only [hw, reduceIte]
      first
        | (rw [show ("WORK" ++ "住所" ++ "1" : String) = "WORK住所1" from rfl,
            w1]; simp [pyOr])
        | (rw [show ("WORK" ++ "住所" ++ "2" : String) = "WORK住所2" from rfl,
            w2]; simp [pyOr])
        | (rw [show ("WORK" ++ "住所" ++ "3" : String) = "WORK住所3" from rfl,
            w3]; simp [pyOr])

/-- Witness for C9: a row holding only a home address line transforms
identically to the empty row. -/
theorem c9_vcard_ignores_home_address_columns_witness :
    row_to_vcard [("自宅住所1", "東京都千代田区丸の内1-1")] =
      row_to_vcard ([] : Row) := by
  have hg : AgreeOffHome [("自宅住所1", "東京都千代田区丸の内1-1")] ([] : Row) := by
    intro k hk
    have hk1 : k ≠ "自宅住所1" := by
      intro e
      subst e
      exact hk (by decide)
    have hb : ("自宅住所1" == k) = false :=
      beq_eq_false_iff_ne.mpr (Ne.symm hk1)
    simp [rowGet, hb]
  exact (c9_vcard_ignores_home_address_columns
    [("自宅住所1", "東京都千代田区丸の内1-1")] ([] : Row) hg
    (by decide) (by decide) (by decide)
    (by decide) (by decide) (by decide)).1

/-- Witness for C10 at the concrete BOM'd CSV. -/
theorem c10_bom_survives_plain_utf8_witness :
    read_csv_rows [0xEF, 0xBB, 0xBF,
        0xE5, 0xA7, 0x93, 0x0A, 0xE5, 0xB1, 0xB1, 0xE7, 0x94, 0xB0] =
      some (dictReaderRows (csvParse ⟨'﻿' :: "姓\n山田".data⟩)) :=
  (c10_bom_survives_plain_utf8
    [0xE5, 0xA7, 0x93, 0x0A, 0xE5, 0xB1, 0xB1, 0xE7, 0x94, 0xB0]
    "姓\n山田".data (by decide)).2.1

end Atena2Vcard
